import Mathlib

/-!
Shallow embedding of the agent-core of this repository: the tool registry
with its loop detector and dispatcher (src/tools/registry.ts), the model
context-limit table (src/providers/context-limits.ts), and the context
compaction engine (token estimation and history rewriting, the unnamed
compaction module).  Pure functions are translated directly; the mutable
process-wide fingerprint buffer is modelled by explicit state passing; the
external backend call used by compaction and the JSON parser are modelled
as function parameters; a thrown exception is an `Except.error`.
-/

set_option autoImplicit false

namespace ChrisAssistant

/-! ## Message data model (OpenAI ChatCompletionMessageParam shape)

A message has a role string, content that is either a plain string, an
array of parts (each part either carrying a `text` field or not), or
null/absent, and an optional `tool_calls` array whose entries either carry
a `function` object (with `name` and `arguments` strings) or not. -/

inductive ContentPart where
  | text (s : String)
  | other
deriving DecidableEq, Repr

inductive MsgContent where
  | str (s : String)
  | parts (ps : List ContentPart)
  | null
deriving DecidableEq, Repr

structure FunctionCall where
  name : String
  arguments : String
deriving DecidableEq, Repr

inductive ToolCallEntry where
  | function (f : FunctionCall)
  | other
deriving DecidableEq, Repr

structure Msg where
  role : String
  content : MsgContent
  tool_calls : Option (List ToolCallEntry) := Option.none
deriving DecidableEq, Repr

/-- Character contribution of one message, as counted by `estimateTokens`:
string content length, or the lengths of the `text` parts, plus for each
tool call carrying a `function` the name length plus the arguments length.
JS `.length` counts UTF-16 code units; we count characters, which agrees on
the ASCII/BMP text the agent exchanges. -/
def msgChars (m : Msg) : Nat :=
  (match m.content with
    | MsgContent.str s => s.length
    | MsgContent.parts ps =>
        (ps.map (fun p => match p with
          | ContentPart.text s => s.length
          | ContentPart.other => 0)).sum
    | MsgContent.null => 0)
  +
  (match m.tool_calls with
    | Option.some tcs =>
        (tcs.map (fun tc => match tc with
          | ToolCallEntry.function f => f.name.length + f.arguments.length
          | ToolCallEntry.other => 0)).sum
    | Option.none => 0)

/-- Total character count over a message list (the `chars` accumulator of
`estimateTokens`). -/
def totalChars (messages : List Msg) : Nat :=
  (messages.map msgChars).sum

/-- Rough token estimate: `Math.ceil(chars / 3.5)`.  Since `chars` is a
natural number and 3.5 = 7/2 this is exactly `⌈2 · chars / 7⌉`, which over
`Nat` is `(2 * chars + 6) / 7`. -/
def estimateTokens (messages : List Msg) : Nat :=
  (2 * totalChars messages + 6) / 7

/-! ## Model context limits (src/providers/context-limits.ts) -/

structure ModelLimits where
  contextWindow : Nat
  compactionThreshold : Nat
deriving DecidableEq, Repr

/-- `limits(contextWindow)` builds the record with
`compactionThreshold = Math.floor(contextWindow * 0.7)`.  For every window
size in the table (and the default) the double-precision product rounds to
the exact value, so the floor equals `7 * contextWindow / 10` over `Nat`. -/
def limits (contextWindow : Nat) : ModelLimits :=
  { contextWindow := contextWindow
    compactionThreshold := 7 * contextWindow / 10 }

/-- The MODEL_LIMITS record, key by key in source order. -/
def MODEL_LIMITS : List (String × ModelLimits) :=
  [ ("claude-opus-4-6", limits 200000)
  , ("claude-sonnet-4-6", limits 200000)
  , ("claude-sonnet-4-5-20250929", limits 200000)
  , ("claude-haiku-4-5-20251001", limits 200000)
  , ("gpt-5.2", limits 128000)
  , ("gpt-5.2-chat-latest", limits 128000)
  , ("gpt-5.2-pro", limits 128000)
  , ("GPT-5.3-Codex", limits 192000)
  , ("GPT-5.2-Codex", limits 192000)
  , ("GPT-5.1-Codex-Mini", limits 192000)
  , ("o3", limits 200000)
  , ("o3-mini", limits 200000)
  , ("o3-pro", limits 200000)
  , ("o3-deep-research", limits 200000)
  , ("o4-mini", limits 200000)
  , ("o4-mini-deep-research", limits 200000)
  , ("gpt-4o", limits 128000)
  , ("gpt-4o-mini", limits 128000)
  , ("gpt-4.1", limits 1000000)
  , ("gpt-4.1-mini", limits 1000000)
  , ("gpt-4.1-nano", limits 1000000)
  , ("MiniMax-M2.5", limits 1000000)
  , ("MiniMax-M2.5-highspeed", limits 1000000)
  ]

def DEFAULT_LIMITS : ModelLimits := limits 128000

/-- `getModelLimits(model)` returns `MODEL_LIMITS[model] || DEFAULT_LIMITS`. -/
def getModelLimits (model : String) : ModelLimits :=
  match MODEL_LIMITS.lookup model with
  | Option.some l => l
  | Option.none => DEFAULT_LIMITS

/-- `needsCompaction(model, messages)`. -/
def needsCompaction (model : String) (messages : List Msg) : Bool :=
  estimateTokens messages > (getModelLimits model).compactionThreshold

/-! ## String helpers

JS string primitives used by the source, modelled over the character data
list so that a witness can be checked by kernel evaluation.  `slice(0, n)`
counts UTF-16 code units and `String.data.take` counts characters; these
agree on BMP text. -/

/-- `s.slice(0, n)`: the first `n` characters. -/
def strTake (s : String) (n : Nat) : String :=
  String.mk (s.data.take n)

/-- `s.startsWith(p)` / a `^p` anchor: `p` is a character-wise leading
segment of `s`. -/
def strStartsWith (s p : String) : Bool :=
  p.data.isPrefixOf s.data

/-- Boolean infix test on lists, used for JS `String.includes`. -/
def listIsInfix : List Char → List Char → Bool
  | p, [] => p.isEmpty
  | p, c :: rest => p.isPrefixOf (c :: rest) || listIsInfix p rest

/-- `s.includes(p)` (case-sensitive substring containment). -/
def strContains (s p : String) : Bool :=
  listIsInfix p.data s.data

/-- ASCII lower-casing of one character code, the case folding a JS `/i`
regex flag performs on the ASCII vocabulary involved here. -/
def lowerCode (n : Nat) : Nat :=
  if 65 ≤ n ∧ n ≤ 90 then n + 32 else n

/-- ASCII-case-folded character codes of a string. -/
def foldCaseCodes (s : String) : List Nat :=
  s.data.map (fun c => lowerCode c.toNat)

/-- Case-insensitive prefix test: models matching `s` against the anchored
case-insensitive regex `/^p/i` for an ASCII pattern `p`. -/
def ciStartsWith (s p : String) : Bool :=
  (foldCaseCodes p).isPrefixOf (foldCaseCodes s)

/-- `s.toUpperCase()` restricted to ASCII letters (roles are ASCII). -/
def asciiUpper (s : String) : String :=
  String.mk (s.data.map (fun c =>
    if 97 ≤ c.toNat ∧ c.toNat ≤ 122 then Char.ofNat (c.toNat - 32) else c))

/-! ## Compaction engine (the unnamed compaction module) -/

/-- The fixed system instruction for the compaction backend call. -/
def COMPACTION_PROMPT : String :=
  "You are a context compaction assistant. Summarize the conversation history below into a structured checkpoint. Be thorough — preserve all important details, findings, file paths, command outputs, error messages, and decisions. This summary replaces the original messages, so nothing important should be lost.\n\nFormat your response exactly as:\n\n## Goal\n[What the user originally asked for]\n\n## Progress\n[Bullet list of what has been accomplished so far]\n\n## Key Findings\n[Important details, file contents, command outputs, error messages discovered]\n\n## Current State\n[Where things stand right now — what was the last action taken]\n\n## Open Issues\n[Any unresolved problems, errors, or next steps identified]"

/-- Serialization of one middle message into a `[ROLE]: content` block,
tool calls rendered as `  → name(args.slice(0, 200))` lines, content over
5000 characters truncated with an inline marker. -/
def serializeMsg (msg : Msg) : String :=
  let role := asciiUpper msg.role
  let content :=
    match msg.content with
    | MsgContent.str s => s
    | MsgContent.parts ps =>
        String.intercalate "\n" (ps.map (fun p =>
          match p with
          | ContentPart.text s => s
          | ContentPart.other => "[non-text content]"))
    | MsgContent.null => ""
  let content :=
    match msg.tool_calls with
    | Option.some tcs =>
        let calls := String.intercalate "\n"
          ((tcs.filterMap (fun tc =>
            match tc with
            | ToolCallEntry.function f => Option.some f
            | ToolCallEntry.other => Option.none)).map (fun f =>
              "  → " ++ f.name ++ "(" ++ strTake f.arguments 200 ++ ")"))
        content ++ "\n" ++ calls
    | Option.none => content
  let content :=
    if content.length > 5000 then strTake content 5000 ++ "\n[...truncated...]"
    else content
  "[" ++ role ++ "]: " ++ content

/-- The serialized middle transcript, blocks joined by `\n\n---\n\n`. -/
def serializeMiddle (middle : List Msg) : String :=
  String.intercalate "\n\n---\n\n" (middle.map serializeMsg)

/-- The summary extracted from a successful backend response:
`response.choices[0]?.message?.content || "[compaction failed]"`; a missing
or empty (falsy) content falls back to the fixed marker. -/
def summaryOf (content : Option String) : String :=
  match content with
  | Option.some s => if s = "" then "[compaction failed]" else s
  | Option.none => "[compaction failed]"

/-- The single synthetic checkpoint message built from the summary. -/
def checkpointMsg (summary : String) : Msg :=
  { role := "user"
    content := MsgContent.str
      ("[CONTEXT CHECKPOINT — this summarizes our earlier conversation]\n\n" ++ summary)
    tool_calls := Option.none }

/-- `compactMessages`.  The backend call
`client.chat.completions.create(...)` is modelled by the `summarize`
parameter, which receives the system instruction and the serialized
transcript and returns either the response content (possibly null) or a
thrown error; the surrounding `try/catch` maps a thrown error to the
original list.  `messages.slice(0, 2)` is `take 2`,
`messages.slice(2, -k)` is `(take (length - k)).drop 2`, and
`messages.slice(-k)` is `drop (length - k)` (for `k ≥ 1`, which holds for
every use: the default is 4). -/
def compactMessages (summarize : String → String → Except String (Option String))
    (messages : List Msg) (keepRecentTurns : Nat := 4) : List Msg :=
  if messages.length < keepRecentTurns + 4 then
    messages
  else
    let pfx := messages.take 2
    let middle := (messages.take (messages.length - keepRecentTurns)).drop 2
    let recent := messages.drop (messages.length - keepRecentTurns)
    if middle.length < 2 then
      messages
    else
      let serialized := serializeMiddle middle
      match summarize COMPACTION_PROMPT serialized with
      | Except.error _ => messages
      | Except.ok content =>
          pfx ++ [checkpointMsg (summaryOf content)] ++ recent

/-! ## Tool registry and loop detector (src/tools/registry.ts)

The registry `Map` is an association list keyed by tool name; the
process-wide `recentFingerprints` array is explicit state (`List String`)
threaded through each call.  A tool executor takes the parsed arguments
(of an abstract type `γ`, since `JSON.parse` is an external builtin) and
either returns a result string or throws (`Except.error` carries the
thrown error message). -/

def LOOP_THRESHOLD : Nat := 3

structure RegisteredTool (γ : Type) where
  name : String
  description : String := ""
  execute : γ → Except String String

/-- The corrective message returned when a stuck cycle is detected. -/
def loopMessage (name : String) : String :=
  "Loop detected: you\x27ve called " ++ name ++ " with the same arguments "
    ++ toString LOOP_THRESHOLD ++ " times in a row. Try a different approach."

/-- The fingerprint of one call: tool name plus the first 500 characters of
the raw argument text. -/
def fingerprintOf (name argsJson : String) : String :=
  name ++ ":" ++ strTake argsJson 500

/-- `checkLoopDetection(name, argsJson)` as a state transition on the
fingerprint buffer: append the fingerprint, trim to the last
`LOOP_THRESHOLD` entries, and if the buffer is full and every entry equals
this fingerprint, clear it and return the corrective message. -/
def checkLoopDetection (state : List String) (name argsJson : String) :
    Option String × List String :=
  let fingerprint := fingerprintOf name argsJson
  let fps := state ++ [fingerprint]
  let fps := if fps.length > LOOP_THRESHOLD then fps.drop (fps.length - LOOP_THRESHOLD) else fps
  if LOOP_THRESHOLD ≤ fps.length ∧ fps.all (fun fp => fp == fingerprint) = true then
    (Option.some (loopMessage name), [])
  else
    (Option.none, fps)

/-- `resetLoopDetection()`: the buffer becomes empty. -/
def resetLoopDetection : List String := []

/-- `dispatchToolCall(name, argsJson, logPrefix)`.  `tools` is the registry
contents, `parseJson` models the `JSON.parse` builtin (throwing =
`Except.error`), and `state` is the fingerprint buffer.  Returns the result
string and the new buffer.  The `try` block converts any throw from
parsing or from the executor into the `Failed to parse tool arguments:`
string; the log-only `logPrefix` argument does not affect the result. -/
def dispatchToolCall {γ : Type} (tools : List (String × RegisteredTool γ))
    (parseJson : String → Except String γ)
    (state : List String) (name argsJson : String) : String × List String :=
  match tools.lookup name with
  | Option.none => ("Unknown tool: " ++ name, state)
  | Option.some t =>
    match checkLoopDetection state name argsJson with
    | (Option.some loopError, state1) => (loopError, state1)
    | (Option.none, state1) =>
      match parseJson argsJson with
      | Except.error e => ("Failed to parse tool arguments: " ++ e, state1)
      | Except.ok args =>
        match t.execute args with
        | Except.error e => ("Failed to parse tool arguments: " ++ e, state1)
        | Except.ok result => (result, state1)

/-- The result-string classification heuristic of the MCP wrapper:
`/^(Unknown|Failed|Error|rejected|denied)/i.test(result) ||
result.includes("rejected:")`.  The regex is case-insensitive, the
`includes` test is not. -/
def classifyIsError (result : String) : Bool :=
  (ciStartsWith result "unknown" || ciStartsWith result "failed"
    || ciStartsWith result "error" || ciStartsWith result "rejected"
    || ciStartsWith result "denied")
  || strContains result "rejected:"

/-- The error condition exactly as the specification words it (for
comparison with `classifyIsError`): the result starts, case-sensitively,
with one of the quoted words, or contains `rejected:`. -/
def specVocabIsError (result : String) : Bool :=
  (strStartsWith result "Unknown" || strStartsWith result "Failed"
    || strStartsWith result "Error" || strStartsWith result "rejected"
    || strStartsWith result "denied")
  || strContains result "rejected:"

structure McpToolResult where
  text : String
  isError : Bool
deriving DecidableEq, Repr

/-- The per-tool MCP handler generated by `getMcpTools`: stringify the
parsed arguments (`JSON.stringify`, modelled by the `stringify` parameter),
consult the loop detector, and otherwise run the executor and classify its
result string.  The wrapper has no `try/catch`, so a throwing executor
propagates (`Except.error`). -/
def mcpHandler {γ : Type} (stringify : γ → String) (t : RegisteredTool γ)
    (state : List String) (args : γ) :
    Except String (McpToolResult × List String) :=
  let argsJson := stringify args
  match checkLoopDetection state t.name argsJson with
  | (Option.some loopError, state1) =>
      Except.ok ({ text := loopError, isError := true }, state1)
  | (Option.none, state1) =>
    match t.execute args with
    | Except.error e => Except.error e
    | Except.ok result =>
        Except.ok ({ text := result, isError := classifyIsError result }, state1)

/-! ## Concrete instances used by witnesses and counterexamples -/

/-- A plain user message with string content. -/
def wMsg (s : String) : Msg :=
  { role := "user", content := MsgContent.str s }

/-- An 8-message history: system prompt, original request, four middle
messages, and a 4-message recent suffix overlap the middle boundary. -/
def wHistory : List Msg :=
  [wMsg "sys", wMsg "ask", wMsg "a", wMsg "b", wMsg "c", wMsg "d", wMsg "e", wMsg "f"]

/-- A backend summarizer that always succeeds with content `S`. -/
def wSummarize : String → String → Except String (Option String) :=
  fun _ _ => Except.ok (Option.some "S")

/-- A backend summarizer whose call always throws. -/
def wSummarizeFail : String → String → Except String (Option String) :=
  fun _ _ => Except.error "network error"

/-- A registered echo tool over trivially parsed arguments. -/
def wTool : RegisteredTool Unit :=
  { name := "echo", execute := fun _ => Except.ok "hi" }

/-- A registry holding the echo tool. -/
def wTools : List (String × RegisteredTool Unit) := [("echo", wTool)]

/-- A `JSON.parse` model that accepts everything. -/
def wParse : String → Except String Unit := fun _ => Except.ok ()

/-- A `JSON.parse` model that rejects everything, as on unparseable text. -/
def wParseFail : String → Except String Unit :=
  fun _ => Except.error "Unexpected token x in JSON"

/-- A registered tool whose executor violates its contract by throwing. -/
def wToolThrows : RegisteredTool Unit :=
  { name := "boom", execute := fun _ => Except.error "kaboom" }

/-- A registered tool whose executor returns the upper-case result
`ERROR`. -/
def wToolUpper : RegisteredTool Unit :=
  { name := "t8", execute := fun _ => Except.ok "ERROR" }

/-- A registry holding the throwing tool. -/
def wToolsThrows : List (String × RegisteredTool Unit) := [("boom", wToolThrows)]

/-! ## Helper lemmas -/

/-- A successful association-list lookup returns one of the stored values. -/
theorem lookup_mem_values {α β : Type} [BEq α] :
    ∀ (l : List (α × β)) (k : α) (v : β),
      l.lookup k = Option.some v → v ∈ l.map Prod.snd := by
  intro l k v
  induction l with
  | nil => intro h; simp [List.lookup] at h
  | cons p rest ih =>
      intro h
      rw [List.lookup] at h
      by_cases hk : k == p.1
      · rw [hk] at h
        simp at h
        simp [h]
      · rw [Bool.not_eq_true] at hk
        rw [hk] at h
        simpa using Or.inr (ih h)

/-- Lookup of a key absent from the association list fails. -/
theorem lookup_eq_none_of_not_mem {α β : Type} [BEq α] [LawfulBEq α] :
    ∀ (l : List (α × β)) (k : α),
      k ∉ l.map Prod.fst → l.lookup k = Option.none := by
  intro l k
  induction l with
  | nil => intro _; rfl
  | cons p rest ih =>
      intro h
      simp only [List.map_cons, List.mem_cons, not_or] at h
      rw [List.lookup]
      have hk : (k == p.1) = false := by
        simp [h.1]
      rw [hk]
      exact ih h.2

/-- Every value stored in the limit table satisfies the threshold shape. -/
theorem model_limits_table_shape :
    ∀ p ∈ MODEL_LIMITS,
      (p : String × ModelLimits).2.compactionThreshold
          = 7 * p.2.contextWindow / 10
        ∧ p.2.compactionThreshold ≤ p.2.contextWindow := by
  decide

/-! ## Claims -/

/-- Claim C7: for every model identifier, `getModelLimits` returns limits
with `compactionThreshold = floor(contextWindow * 0.7)` (exactly
`7 * contextWindow / 10` over naturals, the double rounding being exact for
every table entry), hence `compactionThreshold ≤ contextWindow`; and for
every identifier absent from the limit table it returns the default
fallback entry `limits 128000`, whose context window is 128000. -/
theorem claim_C7_model_limits (model : String) :
    ((getModelLimits model).compactionThreshold
        = 7 * (getModelLimits model).contextWindow / 10
      ∧ (getModelLimits model).compactionThreshold
        ≤ (getModelLimits model).contextWindow)
    ∧ (model ∉ MODEL_LIMITS.map Prod.fst →
        getModelLimits model = limits 128000
          ∧ (getModelLimits model).contextWindow = 128000) := by
  constructor
  · unfold getModelLimits
    cases h : MODEL_LIMITS.lookup model with
    | none => decide
    | some v =>
        have hv := lookup_mem_values MODEL_LIMITS model v h
        simp only [List.mem_map] at hv
        obtain ⟨p, hp, hpv⟩ := hv
        have := model_limits_table_shape p hp
        rw [hpv] at this
        exact this
  · intro habs
    have h := lookup_eq_none_of_not_mem MODEL_LIMITS model habs
    unfold getModelLimits
    rw [h]
    exact ⟨rfl, rfl⟩

/-- Witness for C7 at two concrete identifiers, one present in the table
and one absent. -/
theorem claim_C7_model_limits_witness :
    ((getModelLimits "o3").compactionThreshold
        = 7 * (getModelLimits "o3").contextWindow / 10
      ∧ (getModelLimits "o3").compactionThreshold
        ≤ (getModelLimits "o3").contextWindow)
    ∧ (getModelLimits "some-unlisted-model" = limits 128000
        ∧ (getModelLimits "some-unlisted-model").contextWindow = 128000) :=
  ⟨(claim_C7_model_limits "o3").1,
   (claim_C7_model_limits "some-unlisted-model").2 (by decide)⟩

/-- Claim C5 fails as stated: appending the non-empty message `"b"` to the
one-message history `"a"` leaves the token estimate at
`⌈1 / 3.5⌉ = ⌈2 / 3.5⌉ = 1`, so the estimate does not strictly increase. -/
theorem claim_C5_counterexample :
    0 < msgChars { role := "user", content := MsgContent.str "b" }
    ∧ ¬ (estimateTokens [{ role := "user", content := MsgContent.str "a" }]
          < estimateTokens [{ role := "user", content := MsgContent.str "a" },
              { role := "user", content := MsgContent.str "b" }]) := by
  decide

/-- Claim C5, amended: appending a non-empty message strictly increases the
counted character total, and the token estimate never decreases (strict
increase of the ceiling-divided estimate can fail). -/
theorem claim_C5_estimate_monotone (msgs : List Msg) (m : Msg)
    (h : 0 < msgChars m) :
    totalChars msgs < totalChars (msgs ++ [m])
    ∧ estimateTokens msgs ≤ estimateTokens (msgs ++ [m]) := by
  have htot : totalChars (msgs ++ [m]) = totalChars msgs + msgChars m := by
    simp [totalChars]
  constructor
  · omega
  · unfold estimateTokens
    apply Nat.div_le_div_right
    omega

/-- Witness for the amended C5 at a concrete history and message. -/
theorem claim_C5_estimate_monotone_witness :
    0 < msgChars { role := "user", content := MsgContent.str "hello" }
    ∧ (totalChars [] < totalChars ([] ++ [{ role := "user", content := MsgContent.str "hello" }])
        ∧ estimateTokens []
          ≤ estimateTokens ([] ++ [{ role := "user", content := MsgContent.str "hello" }])) :=
  ⟨by decide,
   claim_C5_estimate_monotone [] { role := "user", content := MsgContent.str "hello" } (by decide)⟩

/-- Claim C10: starting from any buffer with at most 3 entries, the buffer
left by `checkLoopDetection` has at most 3 entries, and the buffer left by
`resetLoopDetection` has at most 3 entries. -/
theorem claim_C10_buffer_bound (state : List String) (name argsJson : String)
    (h : state.length ≤ 3) :
    ((checkLoopDetection state name argsJson).2).length ≤ 3
    ∧ resetLoopDetection.length ≤ 3 := by
  refine ⟨?_, by decide⟩
  unfold checkLoopDetection LOOP_THRESHOLD
  simp only []
  split
  · split
    · simp
    · simp only [List.length_drop, List.length_append, List.length_singleton]
      omega
  · next htrim =>
      split
      · simp
      · simp only [List.length_append, List.length_singleton] at htrim ⊢
        omega

/-- Witness for C10 at a concrete full buffer. -/
theorem claim_C10_buffer_bound_witness :
    ((checkLoopDetection ["a:1", "b:2", "c:3"] "d" "4").2).length ≤ 3
    ∧ resetLoopDetection.length ≤ 3 :=
  claim_C10_buffer_bound ["a:1", "b:2", "c:3"] "d" "4" (by decide)

/-- A history shorter than `keepRecentTurns + 4` is returned unchanged. -/
theorem compact_short (summarize : String → String → Except String (Option String))
    (msgs : List Msg) (k : Nat) (h : msgs.length < k + 4) :
    compactMessages summarize msgs k = msgs := by
  unfold compactMessages
  rw [if_pos h]

/-- On a history of length at least 8 whose backend call succeeds, default
compaction rewrites it as first two, one checkpoint, last four. -/
theorem compact_long (summarize : String → String → Except String (Option String))
    (msgs : List Msg) (content : Option String)
    (hlen : 8 ≤ msgs.length)
    (hsum : summarize COMPACTION_PROMPT
        (serializeMiddle ((msgs.take (msgs.length - 4)).drop 2)) = Except.ok content) :
    compactMessages summarize msgs
      = msgs.take 2 ++ [checkpointMsg (summaryOf content)]
          ++ msgs.drop (msgs.length - 4) := by
  unfold compactMessages
  simp only []
  rw [if_neg (by omega)]
  rw [if_neg (by
    simp only [List.length_drop, List.length_take]
    omega)]
  rw [hsum]

/-- Claim C1: for every history of length at least `keepRecentTurns + 4`
(default `keepRecentTurns = 4`, so at least 8) whose middle slice has at
least 2 messages and whose summary backend call succeeds, `compactMessages`
returns exactly the first 2 input messages, then exactly one synthetic
checkpoint message, then exactly the last 4 input messages; and for every
history of length below 8 it returns the identical input list. -/
theorem claim_C1_compaction_shape
    (summarize : String → String → Except String (Option String))
    (msgs : List Msg) (content : Option String) :
    (8 ≤ msgs.length →
      2 ≤ ((msgs.take (msgs.length - 4)).drop 2).length →
      summarize COMPACTION_PROMPT
          (serializeMiddle ((msgs.take (msgs.length - 4)).drop 2)) = Except.ok content →
      compactMessages summarize msgs
        = msgs.take 2 ++ [checkpointMsg (summaryOf content)]
            ++ msgs.drop (msgs.length - 4))
    ∧ (msgs.length < 8 → compactMessages summarize msgs = msgs) := by
  constructor
  · intro hlen _hmid hsum
    exact compact_long summarize msgs content hlen hsum
  · intro hshort
    exact compact_short summarize msgs 4 hshort

/-- Witness for C1 at a concrete 8-message history (compacted) and a
concrete 3-message history (no-op). -/
theorem claim_C1_compaction_shape_witness :
    compactMessages wSummarize wHistory
      = wHistory.take 2 ++ [checkpointMsg (summaryOf (Option.some "S"))]
          ++ wHistory.drop (wHistory.length - 4)
    ∧ compactMessages wSummarize [wMsg "sys", wMsg "ask", wMsg "a"]
      = [wMsg "sys", wMsg "ask", wMsg "a"] :=
  ⟨(claim_C1_compaction_shape wSummarize wHistory (Option.some "S")).1
      (by decide) (by decide) rfl,
   (claim_C1_compaction_shape wSummarize [wMsg "sys", wMsg "ask", wMsg "a"]
      (Option.some "S")).2 (by decide)⟩

/-- Claim C3: for every input history and every keep count, if the summary
backend call fails (throws), `compactMessages` returns the original input
list unchanged; as a total Lean function it cannot raise, mirroring the
source's catch-all around the backend call (serialization and rebuilding
are pure and cannot throw). -/
theorem claim_C3_failure_preserves
    (summarize : String → String → Except String (Option String))
    (msgs : List Msg) (k : Nat)
    (hfail : ∀ p s, ∃ e, summarize p s = Except.error e) :
    compactMessages summarize msgs k = msgs := by
  unfold compactMessages
  simp only []
  split
  · rfl
  · split
    · rfl
    · obtain ⟨e, he⟩ :=
        hfail COMPACTION_PROMPT (serializeMiddle ((msgs.take (msgs.length - k)).drop 2))
      rw [he]

/-- Witness for C3 at a concrete 8-message history with a failing backend. -/
theorem claim_C3_failure_preserves_witness :
    compactMessages wSummarizeFail wHistory 4 = wHistory :=
  claim_C3_failure_preserves wSummarizeFail wHistory 4
    (fun _ _ => ⟨"network error", rfl⟩)

/-- Claim C6: applying default compaction to the list produced by a
successful compaction returns that list identically: the output has
2 + 1 + 4 = 7 messages, below the 8-message minimum. -/
theorem claim_C6_idempotent
    (s1 s2 : String → String → Except String (Option String))
    (msgs : List Msg) (content : Option String)
    (hlen : 8 ≤ msgs.length)
    (hsum : s1 COMPACTION_PROMPT
        (serializeMiddle ((msgs.take (msgs.length - 4)).drop 2)) = Except.ok content) :
    compactMessages s2 (compactMessages s1 msgs) = compactMessages s1 msgs := by
  rw [compact_long s1 msgs content hlen hsum]
  apply compact_short
  simp only [List.length_append, List.length_take, List.length_drop,
    List.length_cons, List.length_nil]
  omega

/-- Witness for C6 at a concrete 8-message history. -/
theorem claim_C6_idempotent_witness :
    compactMessages wSummarize (compactMessages wSummarize wHistory)
      = compactMessages wSummarize wHistory :=
  claim_C6_idempotent wSummarize wSummarize wHistory (Option.some "S")
    (by decide) rfl

/-- With fewer than two fingerprints buffered after this call, the loop
check appends the fingerprint and does not fire. -/
theorem checkLoop_below (state : List String) (name argsJson : String)
    (h : state.length + 1 < 3) :
    checkLoopDetection state name argsJson
      = (Option.none, state ++ [fingerprintOf name argsJson]) := by
  unfold checkLoopDetection LOOP_THRESHOLD
  simp only []
  have htrim : ¬((state ++ [fingerprintOf name argsJson]).length > 3) := by
    simp only [List.length_append, List.length_cons, List.length_nil]
    omega
  rw [if_neg htrim]
  have hfire : ¬(3 ≤ (state ++ [fingerprintOf name argsJson]).length
      ∧ ((state ++ [fingerprintOf name argsJson]).all
          fun fp => fp == fingerprintOf name argsJson) = true) := by
    intro hc
    have h3 := hc.1
    simp only [List.length_append, List.length_cons, List.length_nil] at h3
    omega
  rw [if_neg hfire]

/-- A buffer already holding this fingerprint twice makes the loop check
fire: it clears the buffer and returns the corrective message. -/
theorem checkLoop_fire (name argsJson : String) :
    checkLoopDetection
        [fingerprintOf name argsJson, fingerprintOf name argsJson] name argsJson
      = (Option.some (loopMessage name), []) := by
  unfold checkLoopDetection LOOP_THRESHOLD
  simp only []
  generalize fingerprintOf name argsJson = f
  have htrim : ¬(([f, f] ++ [f]).length > 3) := by
    simp
  rw [if_neg htrim]
  have hfire : 3 ≤ ([f, f] ++ [f]).length
      ∧ (([f, f] ++ [f]).all fun fp => fp == f) = true := by
    refine ⟨by simp, by simp⟩
  rw [if_pos hfire]

/-- For a registered tool, the buffer `dispatchToolCall` leaves behind is
the one the loop check computes, whatever parsing and execution do. -/
theorem dispatch_state {γ : Type} (tools : List (String × RegisteredTool γ))
    (parseJson : String → Except String γ) (state : List String)
    (name argsJson : String) (t : RegisteredTool γ)
    (h : tools.lookup name = Option.some t) :
    (dispatchToolCall tools parseJson state name argsJson).2
      = (checkLoopDetection state name argsJson).2 := by
  unfold dispatchToolCall
  rw [h]
  rcases hc : checkLoopDetection state name argsJson with ⟨o, s1⟩
  cases o with
  | some m => simp
  | none =>
      cases hp : parseJson argsJson with
      | error e => simp [hp]
      | ok v =>
          cases hx : t.execute v with
          | error e => simp [hp, hx]
          | ok r => simp [hp, hx]

/-- Claim C2: with `LOOP_THRESHOLD = 3`, three consecutive dispatches of a
registered tool whose (identifier, first-500-characters) fingerprints
coincide make the third return the corrective loop message with the buffer
cleared — for every parser and executor, so the executor is not consulted —
and a fourth dispatch with a differing fingerprint from the cleared buffer
executes the tool normally. -/
theorem claim_C2_loop_breaker {γ : Type} (tools : List (String × RegisteredTool γ))
    (parseJson : String → Except String γ) (t : RegisteredTool γ)
    (name a1 a2 a3 a4 : String) (v : γ) (r : String)
    (hreg : tools.lookup name = Option.some t)
    (h1 : strTake a1 500 = strTake a3 500)
    (h2 : strTake a2 500 = strTake a3 500)
    (_h4 : strTake a4 500 ≠ strTake a3 500)
    (hp : parseJson a4 = Except.ok v)
    (hx : t.execute v = Except.ok r) :
    dispatchToolCall tools parseJson
        ((dispatchToolCall tools parseJson
          ((dispatchToolCall tools parseJson [] name a1).2) name a2).2) name a3
      = (loopMessage name, [])
    ∧ dispatchToolCall tools parseJson [] name a4
      = (r, [fingerprintOf name a4]) := by
  have hf1 : fingerprintOf name a1 = fingerprintOf name a3 := by
    unfold fingerprintOf
    rw [h1]
  have hf2 : fingerprintOf name a2 = fingerprintOf name a3 := by
    unfold fingerprintOf
    rw [h2]
  have hs1 : (dispatchToolCall tools parseJson [] name a1).2
      = [fingerprintOf name a3] := by
    rw [dispatch_state tools parseJson [] name a1 t hreg,
      checkLoop_below [] name a1 (by simp)]
    simp [hf1]
  have hs2 : (dispatchToolCall tools parseJson [fingerprintOf name a3] name a2).2
      = [fingerprintOf name a3, fingerprintOf name a3] := by
    rw [dispatch_state tools parseJson _ name a2 t hreg,
      checkLoop_below _ name a2 (by simp)]
    simp [hf2]
  constructor
  · rw [hs1, hs2]
    unfold dispatchToolCall
    rw [hreg, checkLoop_fire name a3]
  · unfold dispatchToolCall
    rw [hreg, checkLoop_below [] name a4 (by simp)]
    simp only [List.nil_append, hp, hx]

/-- Witness for C2: the echo tool, three dispatches with argument `x`,
then one with argument `y`. -/
theorem claim_C2_loop_breaker_witness :
    dispatchToolCall wTools wParse
        ((dispatchToolCall wTools wParse
          ((dispatchToolCall wTools wParse [] "echo" "x").2) "echo" "x").2) "echo" "x"
      = (loopMessage "echo", [])
    ∧ dispatchToolCall wTools wParse [] "echo" "y"
      = ("hi", [fingerprintOf "echo" "y"]) :=
  claim_C2_loop_breaker wTools wParse wTool "echo" "x" "x" "x" "y" () "hi"
    rfl rfl rfl (by decide) rfl rfl

/-- Claim C4 fails as stated: the loop check runs before argument parsing,
so the third consecutive dispatch of a registered tool with the same
unparseable argument text returns the corrective loop message, which does
not start with `Failed to parse tool arguments:`. -/
theorem claim_C4_counterexample :
    wParseFail "x" = Except.error "Unexpected token x in JSON"
    ∧ (dispatchToolCall wTools wParseFail
        ((dispatchToolCall wTools wParseFail
          ((dispatchToolCall wTools wParseFail [] "echo" "x").2) "echo" "x").2) "echo" "x").1
      = loopMessage "echo"
    ∧ strStartsWith (loopMessage "echo") "Failed to parse tool arguments:" = false :=
  ⟨rfl, rfl, by decide⟩

/-- Claim C4, amended: for every registered tool and unparseable argument
text, provided the loop detector does not declare a stuck cycle on this
attempt, dispatch returns the string `Failed to parse tool arguments:`
followed by the parse error message (and, being a total function, never
raises). -/
theorem claim_C4_parse_failure {γ : Type} (tools : List (String × RegisteredTool γ))
    (parseJson : String → Except String γ) (state : List String)
    (name argsJson : String) (t : RegisteredTool γ) (e : String) (s1 : List String)
    (hreg : tools.lookup name = Option.some t)
    (hparse : parseJson argsJson = Except.error e)
    (hnoloop : checkLoopDetection state name argsJson = (Option.none, s1)) :
    dispatchToolCall tools parseJson state name argsJson
      = ("Failed to parse tool arguments: " ++ e, s1) := by
  unfold dispatchToolCall
  rw [hreg, hnoloop]
  simp only [hparse]

/-- Witness for the amended C4 with a fresh buffer. -/
theorem claim_C4_parse_failure_witness :
    dispatchToolCall wTools wParseFail [] "echo" "x"
      = ("Failed to parse tool arguments: " ++ "Unexpected token x in JSON", ["echo:x"]) :=
  claim_C4_parse_failure wTools wParseFail [] "echo" "x" wTool
    "Unexpected token x in JSON" ["echo:x"] rfl rfl rfl

/-- Claim C9: when a registered executor violates its never-raise contract
and throws on parseable arguments (so the call proceeds past the loop
check), `dispatchToolCall` catches the exception and returns the
`Failed to parse tool arguments:` string carrying the executor's error
message, rather than propagating — dispatch stays total. -/
theorem claim_C9_executor_throw {γ : Type} (tools : List (String × RegisteredTool γ))
    (parseJson : String → Except String γ) (state : List String)
    (name argsJson : String) (t : RegisteredTool γ) (v : γ) (e : String)
    (s1 : List String)
    (hreg : tools.lookup name = Option.some t)
    (hp : parseJson argsJson = Except.ok v)
    (hx : t.execute v = Except.error e)
    (hnoloop : checkLoopDetection state name argsJson = (Option.none, s1)) :
    dispatchToolCall tools parseJson state name argsJson
      = ("Failed to parse tool arguments: " ++ e, s1) := by
  unfold dispatchToolCall
  rw [hreg, hnoloop]
  simp only [hp, hx]

/-- Witness for C9 with a throwing executor and a fresh buffer. -/
theorem claim_C9_executor_throw_witness :
    dispatchToolCall wToolsThrows wParse [] "boom" "x"
      = ("Failed to parse tool arguments: " ++ "kaboom", ["boom:x"]) :=
  claim_C9_executor_throw wToolsThrows wParse [] "boom" "x" wToolThrows () "kaboom"
    ["boom:x"] rfl rfl rfl rfl

/-- Claim C8 fails as stated: the classification regex carries the `i`
flag, so the executor result `ERROR` sets the protocol-level error flag
although it does not start, case-sensitively, with any of the quoted
vocabulary words and does not contain `rejected:`. -/
theorem claim_C8_counterexample :
    mcpHandler (fun _ => "()") wToolUpper [] ()
      = Except.ok ({ text := "ERROR", isError := true }, ["t8:()"])
    ∧ specVocabIsError "ERROR" = false :=
  ⟨rfl, by decide⟩

/-- Claim C8, amended: when the loop check passes and the executor returns
`r`, the MCP wrapper surfaces the error flag exactly when `r`
case-insensitively starts with `unknown`, `failed`, `error`, `rejected` or
`denied`, or contains `rejected:`. -/
theorem claim_C8_error_flag {γ : Type} (stringify : γ → String)
    (t : RegisteredTool γ) (state s1 : List String) (args : γ) (r : String)
    (hnoloop : checkLoopDetection state t.name (stringify args) = (Option.none, s1))
    (hexec : t.execute args = Except.ok r) :
    mcpHandler stringify t state args
      = Except.ok ({ text := r, isError := classifyIsError r }, s1)
    ∧ (classifyIsError r = true ↔
        ((ciStartsWith r "unknown" || ciStartsWith r "failed"
          || ciStartsWith r "error" || ciStartsWith r "rejected"
          || ciStartsWith r "denied") = true
         ∨ strContains r "rejected:" = true)) := by
  constructor
  · unfold mcpHandler
    simp only []
    rw [hnoloop]
    simp only [hexec]
  · simp [classifyIsError]

/-- Witness for the amended C8 at the `ERROR`-returning tool. -/
theorem claim_C8_error_flag_witness :
    mcpHandler (fun _ => "()") wToolUpper []
        ()
      = Except.ok ({ text := "ERROR", isError := classifyIsError "ERROR" }, ["t8:()"])
    ∧ (classifyIsError "ERROR" = true ↔
        ((ciStartsWith "ERROR" "unknown" || ciStartsWith "ERROR" "failed"
          || ciStartsWith "ERROR" "error" || ciStartsWith "ERROR" "rejected"
          || ciStartsWith "ERROR" "denied") = true
         ∨ strContains "ERROR" "rejected:" = true)) :=
  claim_C8_error_flag (fun _ => "()") wToolUpper [] ["t8:()"] () "ERROR"
    (by decide) rfl

end ChrisAssistant
